import Mathlib

/-!
Shallow embedding of the connection-telemetry record of
wangle/acceptor/TransportInfo.h (struct TransportInfo, struct HTTPHeaderSize)
and of the kernel-probe population logic described by the specification.

Machine integers of the source are embedded as Int (for the signed C types
int, int32_t, int64_t and the integral representation of the chrono
durations) and Nat (for size_t, uint16_t, uint32_t).  std::string is
embedded as a character list where byte-level properties matter (caAlgo)
and as String elsewhere; std::shared_ptr and folly::Optional become Option.
The default value written after each field mirrors the member initializer
of the C++ declaration.
-/

/-- SSL session-resumption state; the field type of TransportInfo.sslResume
(declared in wangle/ssl/SSLUtil.h, defaulted to the not-applicable value). -/
inductive SSLResumeEnum where
  | handshake
  | resumeSessionId
  | resumeTicket
  | na
deriving DecidableEq

/-- Opaque peer/local address value standing in for folly::SocketAddress;
the record only stores (shared, nullable) pointers to such values. -/
structure SocketAddress where
  host : String := ""
  port : Nat := 0
deriving DecidableEq

/-- Byte counters related to the HTTP headers (struct HTTPHeaderSize):
size_t fields compressed, uncompressed and compressedBlock, each with
member initializer 0. -/
structure HTTPHeaderSize where
  compressed : Nat := 0
  uncompressed : Nat := 0
  compressedBlock : Nat := 0
deriving DecidableEq

/-- Opaque protocol-specific attachment (struct ProtocolInfo). -/
structure ProtocolInfo where
deriving DecidableEq

/-- The native kernel TCP diagnostics block (tcp_info of the platform
headers, stored by value in the record and zero-initialized by the member
initializer).  Only the metric fields the specification names are kept:
smoothed RTT and its variance, retransmit counters, retransmission timeout,
send congestion window, maximum segment size, slow-start threshold. -/
structure TcpInfo where
  tcpi_rtt : Int := 0
  tcpi_rttvar : Int := 0
  tcpi_total_retrans : Int := 0
  tcpi_retransmits : Int := 0
  tcpi_rto : Int := 0
  tcpi_snd_cwnd : Int := 0
  tcpi_snd_mss : Int := 0
  tcpi_snd_ssthresh : Int := 0
deriving DecidableEq

/-- struct TransportInfo of wangle/acceptor/TransportInfo.h, field by field
and in declaration order; each default below transcribes the member
initializer of the corresponding C++ field declaration. -/
structure TransportInfo where
  acceptTime : Int := 0
  rtt : Int := 0
  rtt_var : Int := -1
  rtx : Int := -1
  rtx_tm : Int := -1
  rto : Int := -1
  cwnd : Int := -1
  cwndBytes : Int := -1
  mss : Int := -1
  ssthresh : Int := -1
  caAlgo : List Char := []
  maxPacingRate : Int := -1
  tcpinfo : TcpInfo := {}
  setupTime : Int := 0
  sslSetupTime : Int := 0
  sslCipher : Option String := none
  sslServerName : Option String := none
  sslClientCiphers : Option String := none
  sslClientCiphersHex : Option String := none
  sslClientComprMethods : Option String := none
  sslClientExts : Option String := none
  sslClientSigAlgs : Option String := none
  sslClientSupportedVersions : Option String := none
  sslSignature : Option String := none
  sslServerCiphers : Option String := none
  guessedUserAgent : Option String := none
  appProtocol : Option String := none
  totalBytes : Int := 0
  remoteAddr : Option SocketAddress := none
  localAddr : Option SocketAddress := none
  clientAddrOriginal : Option SocketAddress := none
  ingressHeader : HTTPHeaderSize := {}
  egressHeader : HTTPHeaderSize := {}
  timeToFirstHeaderByte : Int := -1
  timeToFirstByte : Int := -1
  timeToLastByte : Int := -1
  timeToFirstByteTx : Int := -1
  timeToLastByteTx : Int := -1
  timeToLastBodyByteAck : Int := -1
  lastByteAckLatency : Int := -1
  proxyLatency : Int := -1
  clientLatency : Int := -1
  serverLatency : Int := -1
  connectLatency : Int := -1
  egressBodySize : Nat := 0
  maybeFirstBodyByteOffset : Option Nat := none
  maybeLastBodyByteOffset : Option Nat := none
  tcpinfoErrno : Int := 0
  sslSetupBytesWritten : Nat := 0
  sslSetupBytesRead : Nat := 0
  sslError : String := ""
  ingressBodySize : Nat := 0
  sslVersion : Nat := 0
  sslCertSigAlgName : Option String := none
  sslCertSize : Nat := 0
  statusCode : Nat := 0
  sslResume : SSLResumeEnum := SSLResumeEnum.na
  validTcpinfo : Bool := false
  secure : Bool := false
  securityType : String := ""
  protocolInfo : Option ProtocolInfo := none
  tcpSignature : Option String := none
  tcpFingerprint : Option String := none
  tfoSucceded : Bool := false
  negotiatedTokenBindingKeyParameters : Option Nat := none

/-- A freshly constructed TransportInfo: every field holds its member
initializer, exactly as C++ value initialization of the struct produces. -/
def freshTransportInfo : TransportInfo := {}

/-- TransportInfo::getRttMs of the header: returns
duration_cast to milliseconds of the stored microsecond RTT, i.e. the
microsecond count divided by 1000 with C++ integer truncation toward zero. -/
def TransportInfo.getRttMs (ti : TransportInfo) : Int :=
  Int.tdiv ti.rtt 1000

/-- Modelled from the spec: the implementations of the kernel probes
(TransportInfo::initWithSocket, readTcpInfo, readRTT,
readTcpCongestionControl, readMaxPacingRate live in TransportInfo.cpp,
which is not among the analyzed sources; the header has only their
declarations).  A KernelSocket records what each independent getsockopt
query of the kernel would yield for the probed socket: none means the
query fails or is unsupported, some v means it succeeds with value v;
errnoValue is the platform error code observed when the full-TCP-info
query fails. -/
structure KernelSocket where
  tcpInfoResult : Option TcpInfo := none
  errnoValue : Int := 0
  rttResult : Option Int := none
  ccNameRaw : Option (List Char) := none
  pacingRateResult : Option Int := none

/-- The platform-defined maximum length of a TCP congestion-control
algorithm name (TCP_CA_NAME_MAX of the Linux headers). -/
def TCP_CA_NAME_MAX : Nat := 16

/-- C strlen semantics on a kernel-filled character buffer: the stored
string is everything before the first null byte. -/
def strlenPrefix (buf : List Char) : List Char :=
  buf.takeWhile (fun c => c ≠ Char.ofNat 0)

/-- Modelled from the spec (section 4.3): the full-TCP-info probe
(TransportInfo::readTcpInfo, implementation not among the analyzed
sources) fills the native diagnostics block from the kernel and reports
success, or reports failure leaving the buffer untrusted. -/
def TransportInfo.readTcpInfo (k : KernelSocket) : Option TcpInfo :=
  k.tcpInfoResult

/-- Modelled from the spec (section 4.2): the RTT probe
(TransportInfo::readRTT, implementation not among the analyzed sources)
returns the kernel smoothed round-trip-time estimate in microseconds, or
the sentinel -1 if unsupported or the syscall fails; it has no other
failure path. -/
def TransportInfo.readRTT (k : KernelSocket) : Int :=
  match k.rttResult with
  | some v => v
  | none => -1

/-- Modelled from the spec (section 4.4): the congestion-control-name
probe (TransportInfo::readTcpCongestionControl, implementation not among
the analyzed sources) queries the kernel for the algorithm name into a
TCP_CA_NAME_MAX byte buffer; on success it stores the trimmed, non-empty
name into caAlgo, on failure the snapshot is left untouched. -/
def TransportInfo.readTcpCongestionControl (ti : TransportInfo) (k : KernelSocket) :
    Bool × TransportInfo :=
  match k.ccNameRaw with
  | none => (false, ti)
  | some raw =>
      let name := strlenPrefix (raw.take TCP_CA_NAME_MAX)
      if name = [] then (false, ti)
      else (true, { ti with caAlgo := name })

/-- Modelled from the spec (section 4.5): the max-pacing-rate probe
(TransportInfo::readMaxPacingRate, implementation not among the analyzed
sources) stores the kernel pacing rate on success and leaves the field at
its sentinel on failure or when the option is unsupported. -/
def TransportInfo.readMaxPacingRate (ti : TransportInfo) (k : KernelSocket) :
    Bool × TransportInfo :=
  match k.pacingRateResult with
  | none => (false, ti)
  | some r => (true, { ti with maxPacingRate := r })

/-- Modelled from the spec (sections 4.1 and 7): the population entry point
(TransportInfo::initWithSocket, implementation not among the analyzed
sources).  It first runs the full-TCP-info probe; on failure it records the
platform error code in tcpinfoErrno, leaves every metric field untouched
and reports failure with the validity flag false.  On success it copies the
kernel metrics into the snapshot, sets the validity flag, and then runs the
congestion-control-name and pacing-rate probes, whose individual failures
silently leave their target fields unchanged. -/
def TransportInfo.initWithSocket (ti : TransportInfo) (k : KernelSocket) :
    Bool × TransportInfo :=
  match TransportInfo.readTcpInfo k with
  | none => (false, { ti with tcpinfoErrno := k.errnoValue, validTcpinfo := false })
  | some info =>
      let ti1 := { ti with
        rtt := info.tcpi_rtt,
        rtt_var := info.tcpi_rttvar,
        rtx := info.tcpi_total_retrans,
        rtx_tm := info.tcpi_retransmits,
        rto := info.tcpi_rto,
        mss := info.tcpi_snd_mss,
        cwnd := info.tcpi_snd_cwnd,
        cwndBytes := info.tcpi_snd_cwnd * info.tcpi_snd_mss,
        ssthresh := info.tcpi_snd_ssthresh,
        tcpinfo := info,
        validTcpinfo := true }
      let ti2 := (ti1.readTcpCongestionControl k).2
      let ti3 := (ti2.readMaxPacingRate k).2
      (true, ti3)

/-- The congestion-control-name probe changes at most the caAlgo field of
the snapshot it is run on. -/
theorem readTcpCongestionControl_only_caAlgo (ti : TransportInfo) (k : KernelSocket) :
    ∃ n, (ti.readTcpCongestionControl k).2 = { ti with caAlgo := n } := by
  unfold TransportInfo.readTcpCongestionControl
  cases k.ccNameRaw with
  | none => exact ⟨ti.caAlgo, rfl⟩
  | some raw =>
      dsimp only
      split
      · exact ⟨ti.caAlgo, rfl⟩
      · exact ⟨strlenPrefix (raw.take TCP_CA_NAME_MAX), rfl⟩

/-- The max-pacing-rate probe changes at most the maxPacingRate field of
the snapshot it is run on. -/
theorem readMaxPacingRate_only_maxPacingRate (ti : TransportInfo) (k : KernelSocket) :
    ∃ r, (ti.readMaxPacingRate k).2 = { ti with maxPacingRate := r } := by
  unfold TransportInfo.readMaxPacingRate
  cases k.pacingRateResult with
  | none => exact ⟨ti.maxPacingRate, rfl⟩
  | some r => exact ⟨r, rfl⟩

/-- Claim C1 as stated is refuted by the member initializers of the
header: on a freshly constructed TransportInfo the round-trip time holds 0
(initializer at TransportInfo.h line 79), not -1, and the retransmit
counts rtx and rtx_tm hold -1 (lines 89 and 94), not 0, so the claimed
conjunction of default values is false. -/
theorem fresh_congestion_defaults_claim_refuted :
    ¬ (freshTransportInfo.rtt = -1 ∧ freshTransportInfo.rtt_var = -1 ∧
       freshTransportInfo.rtx = 0 ∧ freshTransportInfo.rtx_tm = 0 ∧
       freshTransportInfo.rto = -1 ∧ freshTransportInfo.cwnd = -1 ∧
       freshTransportInfo.cwndBytes = -1 ∧ freshTransportInfo.ssthresh = -1 ∧
       freshTransportInfo.maxPacingRate = -1) := by
  intro h
  exact absurd h.1 (by decide)

/-- Claim C1, amended: on a freshly constructed TransportInfo every
congestion/RTT numeric metric field defaults to -1 — including the
retransmit counts rtx and rtx_tm — except the round-trip time rtt, whose
stored microsecond count defaults to 0. -/
theorem fresh_congestion_defaults :
    freshTransportInfo.rtt = 0 ∧ freshTransportInfo.rtt_var = -1 ∧
    freshTransportInfo.rtx = -1 ∧ freshTransportInfo.rtx_tm = -1 ∧
    freshTransportInfo.rto = -1 ∧ freshTransportInfo.cwnd = -1 ∧
    freshTransportInfo.cwndBytes = -1 ∧ freshTransportInfo.ssthresh = -1 ∧
    freshTransportInfo.maxPacingRate = -1 :=
  ⟨rfl, rfl, rfl, rfl, rfl, rfl, rfl, rfl, rfl⟩

/-- Claim C2: getRttMs is a pure, total derived accessor that converts the
stored microsecond RTT to whole milliseconds by integer truncation toward
zero — bounded within one millisecond below the exact quotient for
nonnegative RTT and within one above it for nonpositive RTT, so it returns
a value for every stored RTT including 0 and negatives — and a stored RTT
of 1500 microseconds yields exactly 1 millisecond, not a rounded 2. -/
theorem getRttMs_truncates (ti : TransportInfo) :
    (0 ≤ ti.rtt → 1000 * ti.getRttMs ≤ ti.rtt ∧ ti.rtt < 1000 * ti.getRttMs + 1000) ∧
    (ti.rtt ≤ 0 → ti.rtt ≤ 1000 * ti.getRttMs ∧ 1000 * ti.getRttMs < ti.rtt + 1000) ∧
    (ti.rtt = 1500 → ti.getRttMs = 1) := by
  unfold TransportInfo.getRttMs
  refine ⟨fun h => ?_, fun h => ?_, fun h => ?_⟩
  · rw [Int.tdiv_eq_ediv h (by decide)]
    omega
  · have h1 : ti.rtt.tdiv 1000 = -((-ti.rtt).tdiv 1000) := by
      rw [Int.neg_tdiv]; ring
    rw [h1, Int.tdiv_eq_ediv (by omega) (by decide)]
    omega
  · rw [h]
    decide

/-- Witness for claim C2 at the concrete snapshot whose stored RTT is 1500
microseconds: the accessor returns 1 millisecond. -/
theorem getRttMs_truncates_witness :
    ({ freshTransportInfo with rtt := 1500 } : TransportInfo).getRttMs = 1 :=
  (getRttMs_truncates { freshTransportInfo with rtt := 1500 }).2.2 rfl

/-- Claim C3: after the population entry point runs, the validTcpinfo flag
equals exactly the success of the full-TCP-info kernel probe, and the flag
is false on a freshly constructed snapshot. -/
theorem validTcpinfo_iff_probe_success (ti : TransportInfo) (k : KernelSocket) :
    ((ti.initWithSocket k).2.validTcpinfo = (TransportInfo.readTcpInfo k).isSome) ∧
    freshTransportInfo.validTcpinfo = false := by
  refine ⟨?_, rfl⟩
  cases hk : TransportInfo.readTcpInfo k with
  | none => simp only [TransportInfo.initWithSocket, hk, Option.isSome_none]
  | some info =>
      simp only [TransportInfo.initWithSocket, hk, Option.isSome_some]
      obtain ⟨n, hn⟩ := readTcpCongestionControl_only_caAlgo _ k
      rw [hn]
      obtain ⟨r, hr⟩ := readMaxPacingRate_only_maxPacingRate _ k
      rw [hr]

/-- Claim C10: the snapshot records the connection maximum segment size in
the numeric field mss, which defaults to the sentinel -1 on construction
(member initializer at TransportInfo.h line 114). -/
theorem fresh_mss_default : freshTransportInfo.mss = -1 := rfl

/-- Claim C4: for every socket — including invalid or closed ones, on which
every kernel query simply fails — the RTT probe returns either the kernel
smoothed round-trip-time estimate in microseconds or the sentinel -1; it is
a total function, so failure is expressed only through the -1 return. -/
theorem readRTT_value_or_sentinel (k : KernelSocket) :
    (k.rttResult = none ∧ TransportInfo.readRTT k = -1) ∨
    (∃ v, k.rttResult = some v ∧ TransportInfo.readRTT k = v) := by
  cases h : k.rttResult with
  | none => exact Or.inl ⟨rfl, by simp only [TransportInfo.readRTT, h]⟩
  | some v => exact Or.inr ⟨v, rfl, by simp only [TransportInfo.readRTT, h]⟩

/-- Claim C5: no failed probe escalates beyond its own fields.  When the
full-TCP-info probe fails, the entry point reports failure, records the
platform error code in tcpinfoErrno, and leaves every metric field exactly
as it was (at its sentinel on a fresh snapshot); when only the name probe
or the pacing-rate probe fails, its target field alone is left unchanged
while the rest of the population proceeds. -/
theorem initWithSocket_failure_policy (ti : TransportInfo) (k : KernelSocket) :
    (TransportInfo.readTcpInfo k = none →
      (ti.initWithSocket k).1 = false ∧
      (ti.initWithSocket k).2.tcpinfoErrno = k.errnoValue ∧
      (ti.initWithSocket k).2.rtt = ti.rtt ∧
      (ti.initWithSocket k).2.rtt_var = ti.rtt_var ∧
      (ti.initWithSocket k).2.rtx = ti.rtx ∧
      (ti.initWithSocket k).2.rtx_tm = ti.rtx_tm ∧
      (ti.initWithSocket k).2.rto = ti.rto ∧
      (ti.initWithSocket k).2.cwnd = ti.cwnd ∧
      (ti.initWithSocket k).2.cwndBytes = ti.cwndBytes ∧
      (ti.initWithSocket k).2.mss = ti.mss ∧
      (ti.initWithSocket k).2.ssthresh = ti.ssthresh ∧
      (ti.initWithSocket k).2.caAlgo = ti.caAlgo ∧
      (ti.initWithSocket k).2.maxPacingRate = ti.maxPacingRate) ∧
    (k.ccNameRaw = none → (ti.initWithSocket k).2.caAlgo = ti.caAlgo) ∧
    (k.pacingRateResult = none →
      (ti.initWithSocket k).2.maxPacingRate = ti.maxPacingRate) := by
  refine ⟨fun h => ?_, fun hc => ?_, fun hp => ?_⟩
  · simp only [TransportInfo.initWithSocket, h]
    simp
  · cases hk : TransportInfo.readTcpInfo k with
    | none => simp only [TransportInfo.initWithSocket, hk]
    | some info =>
        simp only [TransportInfo.initWithSocket, hk,
          TransportInfo.readTcpCongestionControl, hc]
        obtain ⟨r, hr⟩ := readMaxPacingRate_only_maxPacingRate _ k
        rw [hr]
  · cases hk : TransportInfo.readTcpInfo k with
    | none => simp only [TransportInfo.initWithSocket, hk]
    | some info =>
        simp only [TransportInfo.initWithSocket, hk]
        obtain ⟨n, hn⟩ := readTcpCongestionControl_only_caAlgo _ k
        rw [hn]
        simp only [TransportInfo.readMaxPacingRate, hp]

/-- Witness for claim C5: populating a fresh snapshot over a socket on
which every kernel query fails with error code 9 (a bad descriptor)
reports failure, stores 9 in tcpinfoErrno, and leaves the name and
pacing-rate fields unchanged. -/
theorem initWithSocket_failure_policy_witness :
    (freshTransportInfo.initWithSocket { errnoValue := 9 }).1 = false ∧
    (freshTransportInfo.initWithSocket { errnoValue := 9 }).2.tcpinfoErrno = 9 ∧
    (freshTransportInfo.initWithSocket { errnoValue := 9 }).2.caAlgo
      = freshTransportInfo.caAlgo ∧
    (freshTransportInfo.initWithSocket { errnoValue := 9 }).2.maxPacingRate
      = freshTransportInfo.maxPacingRate :=
  ⟨((initWithSocket_failure_policy freshTransportInfo { errnoValue := 9 }).1 rfl).1,
   ((initWithSocket_failure_policy freshTransportInfo { errnoValue := 9 }).1 rfl).2.1,
   (initWithSocket_failure_policy freshTransportInfo { errnoValue := 9 }).2.1 rfl,
   (initWithSocket_failure_policy freshTransportInfo { errnoValue := 9 }).2.2 rfl⟩

/-- Claim C6: the population entry point mutates only the TCP/congestion
related fields of the snapshot; the address fields, the security/SSL
fields, and the byte-counter fields are left unchanged by the call, on
every snapshot and for every socket outcome. -/
theorem initWithSocket_frame (ti : TransportInfo) (k : KernelSocket) :
    (ti.initWithSocket k).2.remoteAddr = ti.remoteAddr ∧
    (ti.initWithSocket k).2.localAddr = ti.localAddr ∧
    (ti.initWithSocket k).2.clientAddrOriginal = ti.clientAddrOriginal ∧
    (ti.initWithSocket k).2.secure = ti.secure ∧
    (ti.initWithSocket k).2.securityType = ti.securityType ∧
    (ti.initWithSocket k).2.sslResume = ti.sslResume ∧
    (ti.initWithSocket k).2.sslVersion = ti.sslVersion ∧
    (ti.initWithSocket k).2.sslCipher = ti.sslCipher ∧
    (ti.initWithSocket k).2.sslServerName = ti.sslServerName ∧
    (ti.initWithSocket k).2.sslClientCiphers = ti.sslClientCiphers ∧
    (ti.initWithSocket k).2.sslSignature = ti.sslSignature ∧
    (ti.initWithSocket k).2.sslError = ti.sslError ∧
    (ti.initWithSocket k).2.sslCertSigAlgName = ti.sslCertSigAlgName ∧
    (ti.initWithSocket k).2.sslCertSize = ti.sslCertSize ∧
    (ti.initWithSocket k).2.sslSetupTime = ti.sslSetupTime ∧
    (ti.initWithSocket k).2.sslSetupBytesWritten = ti.sslSetupBytesWritten ∧
    (ti.initWithSocket k).2.sslSetupBytesRead = ti.sslSetupBytesRead ∧
    (ti.initWithSocket k).2.totalBytes = ti.totalBytes ∧
    (ti.initWithSocket k).2.ingressHeader = ti.ingressHeader ∧
    (ti.initWithSocket k).2.egressHeader = ti.egressHeader ∧
    (ti.initWithSocket k).2.ingressBodySize = ti.ingressBodySize ∧
    (ti.initWithSocket k).2.egressBodySize = ti.egressBodySize := by
  cases hk : TransportInfo.readTcpInfo k with
  | none =>
      simp only [TransportInfo.initWithSocket, hk]
      simp
  | some info =>
      simp only [TransportInfo.initWithSocket, hk]
      obtain ⟨n, hn⟩ := readTcpCongestionControl_only_caAlgo _ k
      rw [hn]
      obtain ⟨r, hr⟩ := readMaxPacingRate_only_maxPacingRate _ k
      rw [hr]
      simp

/-- Claim C7 as stated is refuted by the member initializers of the
header: the TCP setup duration defaults to 0 milliseconds (TransportInfo.h
line 146), not to the sentinel -1, and likewise the TLS setup duration
(line 156), so the claimed conjunction of unmeasured-timing sentinels on a
fresh snapshot is false. -/
theorem fresh_timing_defaults_claim_refuted :
    ¬ (freshTransportInfo.setupTime = -1 ∧
       freshTransportInfo.sslSetupTime = -1 ∧
       freshTransportInfo.timeToFirstHeaderByte = -1 ∧
       freshTransportInfo.timeToFirstByte = -1 ∧
       freshTransportInfo.timeToLastByte = -1 ∧
       freshTransportInfo.timeToFirstByteTx = -1 ∧
       freshTransportInfo.timeToLastByteTx = -1 ∧
       freshTransportInfo.timeToLastBodyByteAck = -1 ∧
       freshTransportInfo.lastByteAckLatency = -1 ∧
       freshTransportInfo.proxyLatency = -1 ∧
       freshTransportInfo.clientLatency = -1 ∧
       freshTransportInfo.serverLatency = -1 ∧
       freshTransportInfo.connectLatency = -1) := by
  intro h
  exact absurd h.1 (by decide)

/-- Claim C7, amended: each named byte-relative latency field of a freshly
constructed snapshot is an integer count of time units holding the
sentinel -1, while the TCP setup duration and the TLS setup duration
default to 0, not to -1. -/
theorem fresh_timing_defaults :
    freshTransportInfo.setupTime = 0 ∧
    freshTransportInfo.sslSetupTime = 0 ∧
    freshTransportInfo.timeToFirstHeaderByte = -1 ∧
    freshTransportInfo.timeToFirstByte = -1 ∧
    freshTransportInfo.timeToLastByte = -1 ∧
    freshTransportInfo.timeToFirstByteTx = -1 ∧
    freshTransportInfo.timeToLastByteTx = -1 ∧
    freshTransportInfo.timeToLastBodyByteAck = -1 ∧
    freshTransportInfo.lastByteAckLatency = -1 ∧
    freshTransportInfo.proxyLatency = -1 ∧
    freshTransportInfo.clientLatency = -1 ∧
    freshTransportInfo.serverLatency = -1 ∧
    freshTransportInfo.connectLatency = -1 :=
  ⟨rfl, rfl, rfl, rfl, rfl, rfl, rfl, rfl, rfl, rfl, rfl, rfl, rfl⟩

/-- Claim C8 as stated is refuted on the totalBytes field: the source
declares it int64_t (TransportInfo.h line 223), a signed type, so the
embedding admits a snapshot holding a negative byte total — impossible for
an unsigned quantity. -/
theorem byteCounters_unsigned_claim_refuted :
    ({ freshTransportInfo with totalBytes := -1 } : TransportInfo).totalBytes < 0 := by
  decide

/-- Claim C8, amended: every byte-counter field of a freshly constructed
snapshot defaults to 0; the header and body size counters are unsigned
(embedded as Nat), but the total-bytes counter is a signed 64-bit count. -/
theorem fresh_byteCounter_defaults :
    freshTransportInfo.ingressHeader.compressed = 0 ∧
    freshTransportInfo.ingressHeader.uncompressed = 0 ∧
    freshTransportInfo.ingressHeader.compressedBlock = 0 ∧
    freshTransportInfo.egressHeader.compressed = 0 ∧
    freshTransportInfo.egressHeader.uncompressed = 0 ∧
    freshTransportInfo.egressHeader.compressedBlock = 0 ∧
    freshTransportInfo.ingressBodySize = 0 ∧
    freshTransportInfo.egressBodySize = 0 ∧
    freshTransportInfo.totalBytes = 0 :=
  ⟨rfl, rfl, rfl, rfl, rfl, rfl, rfl, rfl, rfl⟩

/-- Claim C9: whenever the congestion-control-name probe reports success,
the stored name is non-empty, contains no embedded null bytes, and is at
most TCP_CA_NAME_MAX characters long; whenever it reports failure the name
field is left exactly as it was — in particular it remains the empty
string of a fresh snapshot. -/
theorem readTcpCongestionControl_name_wellformed (ti : TransportInfo) (k : KernelSocket) :
    ((ti.readTcpCongestionControl k).1 = true →
      (ti.readTcpCongestionControl k).2.caAlgo ≠ [] ∧
      (∀ c, c ∈ (ti.readTcpCongestionControl k).2.caAlgo → c ≠ Char.ofNat 0) ∧
      (ti.readTcpCongestionControl k).2.caAlgo.length ≤ TCP_CA_NAME_MAX) ∧
    ((ti.readTcpCongestionControl k).1 = false →
      (ti.readTcpCongestionControl k).2.caAlgo = ti.caAlgo) ∧
    freshTransportInfo.caAlgo = [] := by
  refine ⟨fun hs => ?_, fun hf => ?_, rfl⟩
  · unfold TransportInfo.readTcpCongestionControl at hs ⊢
    cases hr : k.ccNameRaw with
    | none =>
        rw [hr] at hs
        exact Bool.noConfusion hs
    | some raw =>
        rw [hr] at hs
        dsimp only at hs ⊢
        by_cases he : strlenPrefix (raw.take TCP_CA_NAME_MAX) = []
        · rw [if_pos he] at hs
          exact Bool.noConfusion hs
        · rw [if_neg he] at hs ⊢
          dsimp only
          unfold strlenPrefix at he ⊢
          refine ⟨he, fun c hc => ?_, ?_⟩
          · have hp := List.mem_takeWhile_imp hc
            simpa using hp
          · exact le_trans ((List.takeWhile_sublist _).length_le)
              (List.length_take_le _ _)
  · unfold TransportInfo.readTcpCongestionControl at hf ⊢
    cases hr : k.ccNameRaw with
    | none => rfl
    | some raw =>
        rw [hr] at hf
        dsimp only at hf ⊢
        by_cases he : strlenPrefix (raw.take TCP_CA_NAME_MAX) = []
        · rw [if_pos he]
        · rw [if_neg he] at hf
          exact Bool.noConfusion hf

/-- Witness for claim C9: probing a fresh snapshot over a socket whose
kernel reports the algorithm name cubic succeeds and stores a non-empty
name. -/
theorem readTcpCongestionControl_name_wellformed_witness :
    (freshTransportInfo.readTcpCongestionControl
        { ccNameRaw := some ['c', 'u', 'b', 'i', 'c'] }).2.caAlgo ≠ [] :=
  ((readTcpCongestionControl_name_wellformed freshTransportInfo
      { ccNameRaw := some ['c', 'u', 'b', 'i', 'c'] }).1 (by decide)).1
